import Mathlib

/-!
Verification of the LittleBugShop endpoint URL Registry (URL Builder).

The repository contains two variants of the URL builder:

* a lazy, class-based variant (`UrlBuilder` and the per-group endpoint
  classes, file `src/unnamed/part_006`), whose base URL is resolved as
  `baseUrl || config.baseUrl` with
  `config.baseUrl = process.env.BASE_URL || 'http://localhost:5052'`
  (file `src/unnamed/part_007`, `config`);
* an eager, nested-object-factory variant
  (`createLittleBugShopEndpoints` in
  `src/utils/urlBuilders/enpoints/littleBugShopEnpoints.ts`, instantiated
  by `LittleBugShop` in `src/unnamed/part_003` with
  `baseUrl = ${process.env.BASE_URL}` and
  `buildUrl = path => ${baseUrl}/api${path}`).

Environment access (`process.env.BASE_URL`) is modelled as an explicit
`Option String` argument; JavaScript string falsiness (`||`) and template
interpolation of `undefined` are modelled explicitly below.
-/

/-- A JavaScript `string | number` parameter value, as accepted by the
parameterized endpoint operations.  Numbers are used as integers by the
tests; template interpolation stringifies them in decimal. -/
inductive JsVal where
  | str : String → JsVal
  | num : Int → JsVal

/-- JavaScript template-literal stringification of a `string | number`
value: strings are inserted verbatim, numbers render in decimal. -/
def interp : JsVal → String
  | .str s => s
  | .num n => toString n

/-- JavaScript `a || b` for `a : string | undefined`: `a` is falsy exactly
when it is `undefined` or the empty string. -/
def jsOrString (a : Option String) (b : String) : String :=
  match a with
  | some s => if s = "" then b else s
  | none => b

/-- JavaScript template interpolation `${v}` of a `string | undefined`
value: `undefined` interpolates as the literal text `"undefined"`. -/
def templateStr (v : Option String) : String :=
  match v with
  | some s => s
  | none => "undefined"

/-- Modelled from `src/unnamed/part_007`:
`config.baseUrl = process.env.BASE_URL || 'http://localhost:5052'`.
The environment variable `BASE_URL` is the explicit argument. -/
def configBaseUrl (env : Option String) : String :=
  jsOrString env "http://localhost:5052"

/-- Modelled from the `UrlBuilder` constructor in `src/unnamed/part_006`:
`this.baseUrl = baseUrl || config.baseUrl`. -/
def resolveBaseUrl (arg env : Option String) : String :=
  jsOrString arg (configBaseUrl env)

/-! The per-group endpoint classes of `src/unnamed/part_006`.  Each class
stores a `basePath` string fixed by its constructor; each method returns a
template-literal concatenation over `basePath`. -/

structure UsersEndpoints where
  basePath : String

def UsersEndpoints.ofBase (basePath : String) : UsersEndpoints :=
  ⟨basePath ++ "/Users"⟩

def UsersEndpoints.register (e : UsersEndpoints) : String :=
  e.basePath ++ "/register"

def UsersEndpoints.login (e : UsersEndpoints) : String :=
  e.basePath ++ "/login"

def UsersEndpoints.logout (e : UsersEndpoints) : String :=
  e.basePath ++ "/logout"

def UsersEndpoints.getById (e : UsersEndpoints) (id : JsVal) : String :=
  e.basePath ++ "/" ++ interp id

def UsersEndpoints.adminUsers (e : UsersEndpoints) : String :=
  e.basePath ++ "/admin/users"

def UsersEndpoints.adminGetUserById (e : UsersEndpoints) (id : JsVal) : String :=
  e.basePath ++ "/admin/users/" ++ interp id

def UsersEndpoints.adminUpdateUser (e : UsersEndpoints) (id : JsVal) : String :=
  e.basePath ++ "/admin/users/" ++ interp id

def UsersEndpoints.adminResetPassword (e : UsersEndpoints) (id : JsVal) : String :=
  e.basePath ++ "/admin/users/" ++ interp id ++ "/reset-password"

structure ProductsEndpoints where
  basePath : String

def ProductsEndpoints.ofBase (basePath : String) : ProductsEndpoints :=
  ⟨basePath ++ "/Products"⟩

def ProductsEndpoints.list (e : ProductsEndpoints) : String :=
  e.basePath

def ProductsEndpoints.create (e : ProductsEndpoints) : String :=
  e.basePath

def ProductsEndpoints.getById (e : ProductsEndpoints) (id : JsVal) : String :=
  e.basePath ++ "/" ++ interp id

def ProductsEndpoints.update (e : ProductsEndpoints) (id : JsVal) : String :=
  e.basePath ++ "/" ++ interp id

def ProductsEndpoints.delete (e : ProductsEndpoints) (id : JsVal) : String :=
  e.basePath ++ "/" ++ interp id

def ProductsEndpoints.availability (e : ProductsEndpoints) (id : JsVal) : String :=
  e.basePath ++ "/" ++ interp id ++ "/availability"

def ProductsEndpoints.stock (e : ProductsEndpoints) (id : JsVal) : String :=
  e.basePath ++ "/" ++ interp id ++ "/stock"

def ProductsEndpoints.increaseStock (e : ProductsEndpoints) (id : JsVal) : String :=
  e.basePath ++ "/" ++ interp id ++ "/stock/increase"

def ProductsEndpoints.decreaseStock (e : ProductsEndpoints) (id : JsVal) : String :=
  e.basePath ++ "/" ++ interp id ++ "/stock/decrease"

structure CartEndpoints where
  basePath : String

def CartEndpoints.ofBase (basePath : String) : CartEndpoints :=
  ⟨basePath ++ "/Cart"⟩

def CartEndpoints.get (e : CartEndpoints) : String :=
  e.basePath

def CartEndpoints.clear (e : CartEndpoints) : String :=
  e.basePath

def CartEndpoints.addItem (e : CartEndpoints) : String :=
  e.basePath ++ "/items"

def CartEndpoints.updateItem (e : CartEndpoints) (itemId : JsVal) : String :=
  e.basePath ++ "/items/" ++ interp itemId

def CartEndpoints.removeItem (e : CartEndpoints) (itemId : JsVal) : String :=
  e.basePath ++ "/items/" ++ interp itemId

def CartEndpoints.checkout (e : CartEndpoints) : String :=
  e.basePath ++ "/checkout"

def CartEndpoints.applyCoupon (e : CartEndpoints) : String :=
  e.basePath ++ "/apply-coupon"

def CartEndpoints.removeCoupon (e : CartEndpoints) : String :=
  e.basePath ++ "/remove-coupon"

structure OrdersEndpoints where
  basePath : String

def OrdersEndpoints.ofBase (basePath : String) : OrdersEndpoints :=
  ⟨basePath ++ "/Orders"⟩

def OrdersEndpoints.create (e : OrdersEndpoints) : String :=
  e.basePath ++ "/create"

def OrdersEndpoints.place (e : OrdersEndpoints) : String :=
  e.basePath ++ "/place"

def OrdersEndpoints.list (e : OrdersEndpoints) : String :=
  e.basePath

def OrdersEndpoints.myOrders (e : OrdersEndpoints) : String :=
  e.basePath ++ "/my-orders"

def OrdersEndpoints.getById (e : OrdersEndpoints) (id : JsVal) : String :=
  e.basePath ++ "/" ++ interp id

def OrdersEndpoints.delete (e : OrdersEndpoints) (id : JsVal) : String :=
  e.basePath ++ "/" ++ interp id

def OrdersEndpoints.updateStatus (e : OrdersEndpoints) (id : JsVal) : String :=
  e.basePath ++ "/" ++ interp id ++ "/status"

def OrdersEndpoints.pending (e : OrdersEndpoints) : String :=
  e.basePath ++ "/pending"

def OrdersEndpoints.cancel (e : OrdersEndpoints) (id : JsVal) : String :=
  e.basePath ++ "/" ++ interp id ++ "/cancel"

structure ProfileEndpoints where
  basePath : String

def ProfileEndpoints.ofBase (basePath : String) : ProfileEndpoints :=
  ⟨basePath ++ "/users/profile"⟩

def ProfileEndpoints.get (e : ProfileEndpoints) : String :=
  e.basePath

def ProfileEndpoints.update (e : ProfileEndpoints) : String :=
  e.basePath

def ProfileEndpoints.addressesAdd (e : ProfileEndpoints) : String :=
  e.basePath ++ "/addresses"

def ProfileEndpoints.addressesUpdate (e : ProfileEndpoints) (id : JsVal) : String :=
  e.basePath ++ "/addresses/" ++ interp id

def ProfileEndpoints.addressesDelete (e : ProfileEndpoints) (id : JsVal) : String :=
  e.basePath ++ "/addresses/" ++ interp id

def ProfileEndpoints.addressesSetDefault (e : ProfileEndpoints) (id : JsVal) : String :=
  e.basePath ++ "/addresses/" ++ interp id ++ "/set-default"

def ProfileEndpoints.changePassword (e : ProfileEndpoints) : String :=
  e.basePath ++ "/change-password"

structure ReviewsEndpoints where
  basePath : String

def ReviewsEndpoints.ofBase (basePath : String) : ReviewsEndpoints :=
  ⟨basePath⟩

def ReviewsEndpoints.create (e : ReviewsEndpoints) (productId : JsVal) : String :=
  e.basePath ++ "/products/" ++ interp productId ++ "/Reviews"

def ReviewsEndpoints.list (e : ReviewsEndpoints) (productId : JsVal) : String :=
  e.basePath ++ "/products/" ++ interp productId ++ "/Reviews"

def ReviewsEndpoints.getById (e : ReviewsEndpoints) (productId reviewId : JsVal) : String :=
  e.basePath ++ "/products/" ++ interp productId ++ "/Reviews/" ++ interp reviewId

def ReviewsEndpoints.delete (e : ReviewsEndpoints) (productId reviewId : JsVal) : String :=
  e.basePath ++ "/products/" ++ interp productId ++ "/Reviews/" ++ interp reviewId

def ReviewsEndpoints.myReview (e : ReviewsEndpoints) (productId : JsVal) : String :=
  e.basePath ++ "/products/" ++ interp productId ++ "/my-review"

def ReviewsEndpoints.markHelpful (e : ReviewsEndpoints) (reviewId : JsVal) : String :=
  e.basePath ++ "/reviews/" ++ interp reviewId ++ "/helpful"

def ReviewsEndpoints.moderate (e : ReviewsEndpoints) (productId reviewId : JsVal) : String :=
  e.basePath ++ "/products/" ++ interp productId ++ "/Reviews/" ++ interp reviewId ++ "/moderate"

def ReviewsEndpoints.adminList (e : ReviewsEndpoints) : String :=
  e.basePath ++ "/admin/reviews"

structure WishlistEndpoints where
  basePath : String

def WishlistEndpoints.ofBase (basePath : String) : WishlistEndpoints :=
  ⟨basePath ++ "/Wishlist"⟩

def WishlistEndpoints.get (e : WishlistEndpoints) : String :=
  e.basePath

def WishlistEndpoints.clear (e : WishlistEndpoints) : String :=
  e.basePath

def WishlistEndpoints.addItem (e : WishlistEndpoints) (productId : JsVal) : String :=
  e.basePath ++ "/items/" ++ interp productId

def WishlistEndpoints.removeItem (e : WishlistEndpoints) (productId : JsVal) : String :=
  e.basePath ++ "/items/" ++ interp productId

def WishlistEndpoints.checkItem (e : WishlistEndpoints) (productId : JsVal) : String :=
  e.basePath ++ "/check/" ++ interp productId

def WishlistEndpoints.moveToCart (e : WishlistEndpoints) : String :=
  e.basePath ++ "/move-to-cart"

def WishlistEndpoints.count (e : WishlistEndpoints) : String :=
  e.basePath ++ "/count"

structure PaymentMethodsEndpoints where
  basePath : String

def PaymentMethodsEndpoints.ofBase (basePath : String) : PaymentMethodsEndpoints :=
  ⟨basePath ++ "/payment-methods"⟩

def PaymentMethodsEndpoints.list (e : PaymentMethodsEndpoints) : String :=
  e.basePath

def PaymentMethodsEndpoints.add (e : PaymentMethodsEndpoints) : String :=
  e.basePath

def PaymentMethodsEndpoints.getById (e : PaymentMethodsEndpoints) (id : JsVal) : String :=
  e.basePath ++ "/" ++ interp id

def PaymentMethodsEndpoints.update (e : PaymentMethodsEndpoints) (id : JsVal) : String :=
  e.basePath ++ "/" ++ interp id

def PaymentMethodsEndpoints.delete (e : PaymentMethodsEndpoints) (id : JsVal) : String :=
  e.basePath ++ "/" ++ interp id

def PaymentMethodsEndpoints.setDefault (e : PaymentMethodsEndpoints) (id : JsVal) : String :=
  e.basePath ++ "/" ++ interp id ++ "/set-default"

structure PaymentsEndpoints where
  basePath : String

def PaymentsEndpoints.ofBase (basePath : String) : PaymentsEndpoints :=
  ⟨basePath ++ "/payments"⟩

def PaymentsEndpoints.process (e : PaymentsEndpoints) : String :=
  e.basePath ++ "/process"

def PaymentsEndpoints.transactions (e : PaymentsEndpoints) : String :=
  e.basePath ++ "/transactions"

def PaymentsEndpoints.getTransaction (e : PaymentsEndpoints) (id : JsVal) : String :=
  e.basePath ++ "/transactions/" ++ interp id

def PaymentsEndpoints.refund (e : PaymentsEndpoints) : String :=
  e.basePath ++ "/refund"

def PaymentsEndpoints.adminTransactions (e : PaymentsEndpoints) : String :=
  e.basePath ++ "/admin/transactions"

def PaymentsEndpoints.adminStatistics (e : PaymentsEndpoints) : String :=
  e.basePath ++ "/admin/statistics"

structure CouponsEndpoints where
  basePath : String

def CouponsEndpoints.ofBase (basePath : String) : CouponsEndpoints :=
  ⟨basePath ++ "/Coupons"⟩

def CouponsEndpoints.validate (e : CouponsEndpoints) (code : String) : String :=
  e.basePath ++ "/validate/" ++ code

def CouponsEndpoints.adminList (e : CouponsEndpoints) : String :=
  e.basePath ++ "/admin/coupons"

def CouponsEndpoints.adminCreate (e : CouponsEndpoints) : String :=
  e.basePath ++ "/admin/coupons"

def CouponsEndpoints.adminUpdate (e : CouponsEndpoints) (id : JsVal) : String :=
  e.basePath ++ "/admin/coupons/" ++ interp id

def CouponsEndpoints.adminDelete (e : CouponsEndpoints) (id : JsVal) : String :=
  e.basePath ++ "/admin/coupons/" ++ interp id

def CouponsEndpoints.adminUsage (e : CouponsEndpoints) (id : JsVal) : String :=
  e.basePath ++ "/admin/coupons/" ++ interp id ++ "/usage"

structure SessionEndpoints where
  basePath : String

def SessionEndpoints.ofBase (basePath : String) : SessionEndpoints :=
  ⟨basePath ++ "/Session"⟩

def SessionEndpoints.get (e : SessionEndpoints) : String :=
  e.basePath

/-- The lazy, class-based Registry of `src/unnamed/part_006`: holds the
resolved base URL; each resource-group getter constructs a fresh endpoint
object over `baseUrl + "/api"`. -/
structure UrlBuilder where
  baseUrl : String

/-- Modelled from the `UrlBuilder` constructor:
`this.baseUrl = baseUrl || config.baseUrl`, with the `BASE_URL`
environment variable passed explicitly. -/
def mkUrlBuilder (arg env : Option String) : UrlBuilder :=
  ⟨resolveBaseUrl arg env⟩

def UrlBuilder.Users (u : UrlBuilder) : UsersEndpoints :=
  UsersEndpoints.ofBase (u.baseUrl ++ "/api")

def UrlBuilder.Products (u : UrlBuilder) : ProductsEndpoints :=
  ProductsEndpoints.ofBase (u.baseUrl ++ "/api")

def UrlBuilder.Cart (u : UrlBuilder) : CartEndpoints :=
  CartEndpoints.ofBase (u.baseUrl ++ "/api")

def UrlBuilder.Orders (u : UrlBuilder) : OrdersEndpoints :=
  OrdersEndpoints.ofBase (u.baseUrl ++ "/api")

def UrlBuilder.Profile (u : UrlBuilder) : ProfileEndpoints :=
  ProfileEndpoints.ofBase (u.baseUrl ++ "/api")

def UrlBuilder.Reviews (u : UrlBuilder) : ReviewsEndpoints :=
  ReviewsEndpoints.ofBase (u.baseUrl ++ "/api")

def UrlBuilder.Wishlist (u : UrlBuilder) : WishlistEndpoints :=
  WishlistEndpoints.ofBase (u.baseUrl ++ "/api")

def UrlBuilder.PaymentMethods (u : UrlBuilder) : PaymentMethodsEndpoints :=
  PaymentMethodsEndpoints.ofBase (u.baseUrl ++ "/api")

def UrlBuilder.Payments (u : UrlBuilder) : PaymentsEndpoints :=
  PaymentsEndpoints.ofBase (u.baseUrl ++ "/api")

def UrlBuilder.Coupons (u : UrlBuilder) : CouponsEndpoints :=
  CouponsEndpoints.ofBase (u.baseUrl ++ "/api")

def UrlBuilder.Session (u : UrlBuilder) : SessionEndpoints :=
  SessionEndpoints.ofBase (u.baseUrl ++ "/api")

/-- Top-level factory of `src/unnamed/part_006` (`LittleBugShop`):
`new UrlBuilder(baseUrl)`. -/
def LittleBugShop (arg env : Option String) : UrlBuilder :=
  mkUrlBuilder arg env

/-- The operations of the Registry, one constructor per operation of the
path-template table, with the call arguments carried by the constructor.
`Cart_clear` is named `clear` in the class variant and `delete` in the
eager factory variant; both map to the same template `/Cart`. -/
inductive Op where
  | Users_register
  | Users_login
  | Users_logout
  | Users_getById (id : JsVal)
  | Users_adminUsers
  | Users_adminGetUserById (id : JsVal)
  | Users_adminUpdateUser (id : JsVal)
  | Users_adminResetPassword (id : JsVal)
  | Products_list
  | Products_create
  | Products_getById (id : JsVal)
  | Products_update (id : JsVal)
  | Products_delete (id : JsVal)
  | Products_availability (id : JsVal)
  | Products_stock (id : JsVal)
  | Products_increaseStock (id : JsVal)
  | Products_decreaseStock (id : JsVal)
  | Cart_get
  | Cart_clear
  | Cart_addItem
  | Cart_updateItem (itemId : JsVal)
  | Cart_removeItem (itemId : JsVal)
  | Cart_checkout
  | Cart_applyCoupon
  | Cart_removeCoupon
  | Orders_create
  | Orders_place
  | Orders_list
  | Orders_myOrders
  | Orders_getById (id : JsVal)
  | Orders_delete (id : JsVal)
  | Orders_updateStatus (id : JsVal)
  | Orders_pending
  | Orders_cancel (id : JsVal)
  | Profile_get
  | Profile_update
  | Profile_addressesAdd
  | Profile_addressesUpdate (id : JsVal)
  | Profile_addressesDelete (id : JsVal)
  | Profile_addressesSetDefault (id : JsVal)
  | Profile_changePassword
  | Reviews_create (productId : JsVal)
  | Reviews_list (productId : JsVal)
  | Reviews_getById (productId reviewId : JsVal)
  | Reviews_delete (productId reviewId : JsVal)
  | Reviews_myReview (productId : JsVal)
  | Reviews_markHelpful (reviewId : JsVal)
  | Reviews_moderate (productId reviewId : JsVal)
  | Reviews_adminList
  | Wishlist_get
  | Wishlist_clear
  | Wishlist_addItem (productId : JsVal)
  | Wishlist_removeItem (productId : JsVal)
  | Wishlist_checkItem (productId : JsVal)
  | Wishlist_moveToCart
  | Wishlist_count
  | PaymentMethods_list
  | PaymentMethods_add
  | PaymentMethods_getById (id : JsVal)
  | PaymentMethods_update (id : JsVal)
  | PaymentMethods_delete (id : JsVal)
  | PaymentMethods_setDefault (id : JsVal)
  | Payments_process
  | Payments_transactions
  | Payments_getTransaction (id : JsVal)
  | Payments_refund
  | Payments_adminTransactions
  | Payments_adminStatistics
  | Coupons_validate (code : String)
  | Coupons_adminList
  | Coupons_adminCreate
  | Coupons_adminUpdate (id : JsVal)
  | Coupons_adminDelete (id : JsVal)
  | Coupons_adminUsage (id : JsVal)
  | Session_get

/-- The URL the class-based variant produces for an operation: dispatch
through the corresponding getter and endpoint-class method of
`src/unnamed/part_006`. -/
def urlOf (u : UrlBuilder) : Op → String
  | .Users_register => u.Users.register
  | .Users_login => u.Users.login
  | .Users_logout => u.Users.logout
  | .Users_getById id => u.Users.getById id
  | .Users_adminUsers => u.Users.adminUsers
  | .Users_adminGetUserById id => u.Users.adminGetUserById id
  | .Users_adminUpdateUser id => u.Users.adminUpdateUser id
  | .Users_adminResetPassword id => u.Users.adminResetPassword id
  | .Products_list => u.Products.list
  | .Products_create => u.Products.create
  | .Products_getById id => u.Products.getById id
  | .Products_update id => u.Products.update id
  | .Products_delete id => u.Products.delete id
  | .Products_availability id => u.Products.availability id
  | .Products_stock id => u.Products.stock id
  | .Products_increaseStock id => u.Products.increaseStock id
  | .Products_decreaseStock id => u.Products.decreaseStock id
  | .Cart_get => u.Cart.get
  | .Cart_clear => u.Cart.clear
  | .Cart_addItem => u.Cart.addItem
  | .Cart_updateItem itemId => u.Cart.updateItem itemId
  | .Cart_removeItem itemId => u.Cart.removeItem itemId
  | .Cart_checkout => u.Cart.checkout
  | .Cart_applyCoupon => u.Cart.applyCoupon
  | .Cart_removeCoupon => u.Cart.removeCoupon
  | .Orders_create => u.Orders.create
  | .Orders_place => u.Orders.place
  | .Orders_list => u.Orders.list
  | .Orders_myOrders => u.Orders.myOrders
  | .Orders_getById id => u.Orders.getById id
  | .Orders_delete id => u.Orders.delete id
  | .Orders_updateStatus id => u.Orders.updateStatus id
  | .Orders_pending => u.Orders.pending
  | .Orders_cancel id => u.Orders.cancel id
  | .Profile_get => u.Profile.get
  | .Profile_update => u.Profile.update
  | .Profile_addressesAdd => u.Profile.addressesAdd
  | .Profile_addressesUpdate id => u.Profile.addressesUpdate id
  | .Profile_addressesDelete id => u.Profile.addressesDelete id
  | .Profile_addressesSetDefault id => u.Profile.addressesSetDefault id
  | .Profile_changePassword => u.Profile.changePassword
  | .Reviews_create productId => u.Reviews.create productId
  | .Reviews_list productId => u.Reviews.list productId
  | .Reviews_getById productId reviewId => u.Reviews.getById productId reviewId
  | .Reviews_delete productId reviewId => u.Reviews.delete productId reviewId
  | .Reviews_myReview productId => u.Reviews.myReview productId
  | .Reviews_markHelpful reviewId => u.Reviews.markHelpful reviewId
  | .Reviews_moderate productId reviewId => u.Reviews.moderate productId reviewId
  | .Reviews_adminList => u.Reviews.adminList
  | .Wishlist_get => u.Wishlist.get
  | .Wishlist_clear => u.Wishlist.clear
  | .Wishlist_addItem productId => u.Wishlist.addItem productId
  | .Wishlist_removeItem productId => u.Wishlist.removeItem productId
  | .Wishlist_checkItem productId => u.Wishlist.checkItem productId
  | .Wishlist_moveToCart => u.Wishlist.moveToCart
  | .Wishlist_count => u.Wishlist.count
  | .PaymentMethods_list => u.PaymentMethods.list
  | .PaymentMethods_add => u.PaymentMethods.add
  | .PaymentMethods_getById id => u.PaymentMethods.getById id
  | .PaymentMethods_update id => u.PaymentMethods.update id
  | .PaymentMethods_delete id => u.PaymentMethods.delete id
  | .PaymentMethods_setDefault id => u.PaymentMethods.setDefault id
  | .Payments_process => u.Payments.process
  | .Payments_transactions => u.Payments.transactions
  | .Payments_getTransaction id => u.Payments.getTransaction id
  | .Payments_refund => u.Payments.refund
  | .Payments_adminTransactions => u.Payments.adminTransactions
  | .Payments_adminStatistics => u.Payments.adminStatistics
  | .Coupons_validate code => u.Coupons.validate code
  | .Coupons_adminList => u.Coupons.adminList
  | .Coupons_adminCreate => u.Coupons.adminCreate
  | .Coupons_adminUpdate id => u.Coupons.adminUpdate id
  | .Coupons_adminDelete id => u.Coupons.adminDelete id
  | .Coupons_adminUsage id => u.Coupons.adminUsage id
  | .Session_get => u.Session.get

/-- The eager nested-object-factory variant
(`src/utils/urlBuilders/enpoints/littleBugShopEnpoints.ts`): every leaf is
an application of the supplied `buildUrl` to its path template, with call
arguments interpolated into the template.  The source's `Cart.delete`
(template `/Cart`) is the class variant's `Cart.clear` and is carried by
the `Op.Cart_clear` constructor. -/
def createLittleBugShopEndpoints (buildUrl : String → String) : Op → String
  | .Users_register => buildUrl "/Users/register"
  | .Users_login => buildUrl "/Users/login"
  | .Users_logout => buildUrl "/Users/logout"
  | .Users_getById id => buildUrl ("/Users/" ++ interp id)
  | .Users_adminUsers => buildUrl "/Users/admin/users"
  | .Users_adminGetUserById id => buildUrl ("/Users/admin/users/" ++ interp id)
  | .Users_adminUpdateUser id => buildUrl ("/Users/admin/users/" ++ interp id)
  | .Users_adminResetPassword id => buildUrl ("/Users/admin/users/" ++ interp id ++ "/reset-password")
  | .Products_list => buildUrl "/Products"
  | .Products_create => buildUrl "/Products"
  | .Products_getById id => buildUrl ("/Products/" ++ interp id)
  | .Products_update id => buildUrl ("/Products/" ++ interp id)
  | .Products_delete id => buildUrl ("/Products/" ++ interp id)
  | .Products_availability id => buildUrl ("/Products/" ++ interp id ++ "/availability")
  | .Products_stock id => buildUrl ("/Products/" ++ interp id ++ "/stock")
  | .Products_increaseStock id => buildUrl ("/Products/" ++ interp id ++ "/stock/increase")
  | .Products_decreaseStock id => buildUrl ("/Products/" ++ interp id ++ "/stock/decrease")
  | .Cart_get => buildUrl "/Cart"
  | .Cart_clear => buildUrl "/Cart"
  | .Cart_addItem => buildUrl "/Cart/items"
  | .Cart_updateItem itemId => buildUrl ("/Cart/items/" ++ interp itemId)
  | .Cart_removeItem itemId => buildUrl ("/Cart/items/" ++ interp itemId)
  | .Cart_checkout => buildUrl "/Cart/checkout"
  | .Cart_applyCoupon => buildUrl "/Cart/apply-coupon"
  | .Cart_removeCoupon => buildUrl "/Cart/remove-coupon"
  | .Orders_create => buildUrl "/Orders/create"
  | .Orders_place => buildUrl "/Orders/place"
  | .Orders_list => buildUrl "/Orders"
  | .Orders_myOrders => buildUrl "/Orders/my-orders"
  | .Orders_getById id => buildUrl ("/Orders/" ++ interp id)
  | .Orders_delete id => buildUrl ("/Orders/" ++ interp id)
  | .Orders_updateStatus id => buildUrl ("/Orders/" ++ interp id ++ "/status")
  | .Orders_pending => buildUrl "/Orders/pending"
  | .Orders_cancel id => buildUrl ("/Orders/" ++ interp id ++ "/cancel")
  | .Profile_get => buildUrl "/users/profile"
  | .Profile_update => buildUrl "/users/profile"
  | .Profile_addressesAdd => buildUrl "/users/profile/addresses"
  | .Profile_addressesUpdate id => buildUrl ("/users/profile/addresses/" ++ interp id)
  | .Profile_addressesDelete id => buildUrl ("/users/profile/addresses/" ++ interp id)
  | .Profile_addressesSetDefault id => buildUrl ("/users/profile/addresses/" ++ interp id ++ "/set-default")
  | .Profile_changePassword => buildUrl "/users/profile/change-password"
  | .Reviews_create productId => buildUrl ("/products/" ++ interp productId ++ "/Reviews")
  | .Reviews_list productId => buildUrl ("/products/" ++ interp productId ++ "/Reviews")
  | .Reviews_getById productId reviewId => buildUrl ("/products/" ++ interp productId ++ "/Reviews/" ++ interp reviewId)
  | .Reviews_delete productId reviewId => buildUrl ("/products/" ++ interp productId ++ "/Reviews/" ++ interp reviewId)
  | .Reviews_myReview productId => buildUrl ("/products/" ++ interp productId ++ "/my-review")
  | .Reviews_markHelpful reviewId => buildUrl ("/reviews/" ++ interp reviewId ++ "/helpful")
  | .Reviews_moderate productId reviewId => buildUrl ("/products/" ++ interp productId ++ "/Reviews/" ++ interp reviewId ++ "/moderate")
  | .Reviews_adminList => buildUrl "/admin/reviews"
  | .Wishlist_get => buildUrl "/Wishlist"
  | .Wishlist_clear => buildUrl "/Wishlist"
  | .Wishlist_addItem productId => buildUrl ("/Wishlist/items/" ++ interp productId)
  | .Wishlist_removeItem productId => buildUrl ("/Wishlist/items/" ++ interp productId)
  | .Wishlist_checkItem productId => buildUrl ("/Wishlist/check/" ++ interp productId)
  | .Wishlist_moveToCart => buildUrl "/Wishlist/move-to-cart"
  | .Wishlist_count => buildUrl "/Wishlist/count"
  | .PaymentMethods_list => buildUrl "/payment-methods"
  | .PaymentMethods_add => buildUrl "/payment-methods"
  | .PaymentMethods_getById id => buildUrl ("/payment-methods/" ++ interp id)
  | .PaymentMethods_update id => buildUrl ("/payment-methods/" ++ interp id)
  | .PaymentMethods_delete id => buildUrl ("/payment-methods/" ++ interp id)
  | .PaymentMethods_setDefault id => buildUrl ("/payment-methods/" ++ interp id ++ "/set-default")
  | .Payments_process => buildUrl "/payments/process"
  | .Payments_transactions => buildUrl "/payments/transactions"
  | .Payments_getTransaction id => buildUrl ("/payments/transactions/" ++ interp id)
  | .Payments_refund => buildUrl "/payments/refund"
  | .Payments_adminTransactions => buildUrl "/payments/admin/transactions"
  | .Payments_adminStatistics => buildUrl "/payments/admin/statistics"
  | .Coupons_validate code => buildUrl ("/Coupons/validate/" ++ code)
  | .Coupons_adminList => buildUrl "/Coupons/admin/coupons"
  | .Coupons_adminCreate => buildUrl "/Coupons/admin/coupons"
  | .Coupons_adminUpdate id => buildUrl ("/Coupons/admin/coupons/" ++ interp id)
  | .Coupons_adminDelete id => buildUrl ("/Coupons/admin/coupons/" ++ interp id)
  | .Coupons_adminUsage id => buildUrl ("/Coupons/admin/coupons/" ++ interp id ++ "/usage")
  | .Session_get => buildUrl "/Session"

/-- Top-level eager factory of `src/unnamed/part_003` (`LittleBugShop`):
it takes no base-URL argument; its base URL is the template interpolation
of `process.env.BASE_URL`, and its `buildUrl` is
`path => ${baseUrl}/api${path}`.  The first component models the
`BaseUrl` field, the second the `Controllers` field. -/
def LittleBugShopEager (env : Option String) : String × (Op → String) :=
  let baseUrl := templateStr env
  (baseUrl, createLittleBugShopEndpoints (fun path => baseUrl ++ "/api" ++ path))

/-- Modelled from the spec's path-template table (section 6): the full
path, `"/api"` included, that the spec assigns to each operation, with
parameters substituted in declaration order.  This is the spec-side
definition against which both source variants are compared. -/
def specPathTemplate : Op → String
  | .Users_register => "/api/Users/register"
  | .Users_login => "/api/Users/login"
  | .Users_logout => "/api/Users/logout"
  | .Users_getById id => "/api/Users/" ++ interp id
  | .Users_adminUsers => "/api/Users/admin/users"
  | .Users_adminGetUserById id => "/api/Users/admin/users/" ++ interp id
  | .Users_adminUpdateUser id => "/api/Users/admin/users/" ++ interp id
  | .Users_adminResetPassword id => "/api/Users/admin/users/" ++ interp id ++ "/reset-password"
  | .Products_list => "/api/Products"
  | .Products_create => "/api/Products"
  | .Products_getById id => "/api/Products/" ++ interp id
  | .Products_update id => "/api/Products/" ++ interp id
  | .Products_delete id => "/api/Products/" ++ interp id
  | .Products_availability id => "/api/Products/" ++ interp id ++ "/availability"
  | .Products_stock id => "/api/Products/" ++ interp id ++ "/stock"
  | .Products_increaseStock id => "/api/Products/" ++ interp id ++ "/stock/increase"
  | .Products_decreaseStock id => "/api/Products/" ++ interp id ++ "/stock/decrease"
  | .Cart_get => "/api/Cart"
  | .Cart_clear => "/api/Cart"
  | .Cart_addItem => "/api/Cart/items"
  | .Cart_updateItem itemId => "/api/Cart/items/" ++ interp itemId
  | .Cart_removeItem itemId => "/api/Cart/items/" ++ interp itemId
  | .Cart_checkout => "/api/Cart/checkout"
  | .Cart_applyCoupon => "/api/Cart/apply-coupon"
  | .Cart_removeCoupon => "/api/Cart/remove-coupon"
  | .Orders_create => "/api/Orders/create"
  | .Orders_place => "/api/Orders/place"
  | .Orders_list => "/api/Orders"
  | .Orders_myOrders => "/api/Orders/my-orders"
  | .Orders_getById id => "/api/Orders/" ++ interp id
  | .Orders_delete id => "/api/Orders/" ++ interp id
  | .Orders_updateStatus id => "/api/Orders/" ++ interp id ++ "/status"
  | .Orders_pending => "/api/Orders/pending"
  | .Orders_cancel id => "/api/Orders/" ++ interp id ++ "/cancel"
  | .Profile_get => "/api/users/profile"
  | .Profile_update => "/api/users/profile"
  | .Profile_addressesAdd => "/api/users/profile/addresses"
  | .Profile_addressesUpdate id => "/api/users/profile/addresses/" ++ interp id
  | .Profile_addressesDelete id => "/api/users/profile/addresses/" ++ interp id
  | .Profile_addressesSetDefault id => "/api/users/profile/addresses/" ++ interp id ++ "/set-default"
  | .Profile_changePassword => "/api/users/profile/change-password"
  | .Reviews_create productId => "/api/products/" ++ interp productId ++ "/Reviews"
  | .Reviews_list productId => "/api/products/" ++ interp productId ++ "/Reviews"
  | .Reviews_getById productId reviewId => "/api/products/" ++ interp productId ++ "/Reviews/" ++ interp reviewId
  | .Reviews_delete productId reviewId => "/api/products/" ++ interp productId ++ "/Reviews/" ++ interp reviewId
  | .Reviews_myReview productId => "/api/products/" ++ interp productId ++ "/my-review"
  | .Reviews_markHelpful reviewId => "/api/reviews/" ++ interp reviewId ++ "/helpful"
  | .Reviews_moderate productId reviewId => "/api/products/" ++ interp productId ++ "/Reviews/" ++ interp reviewId ++ "/moderate"
  | .Reviews_adminList => "/api/admin/reviews"
  | .Wishlist_get => "/api/Wishlist"
  | .Wishlist_clear => "/api/Wishlist"
  | .Wishlist_addItem productId => "/api/Wishlist/items/" ++ interp productId
  | .Wishlist_removeItem productId => "/api/Wishlist/items/" ++ interp productId
  | .Wishlist_checkItem productId => "/api/Wishlist/check/" ++ interp productId
  | .Wishlist_moveToCart => "/api/Wishlist/move-to-cart"
  | .Wishlist_count => "/api/Wishlist/count"
  | .PaymentMethods_list => "/api/payment-methods"
  | .PaymentMethods_add => "/api/payment-methods"
  | .PaymentMethods_getById id => "/api/payment-methods/" ++ interp id
  | .PaymentMethods_update id => "/api/payment-methods/" ++ interp id
  | .PaymentMethods_delete id => "/api/payment-methods/" ++ interp id
  | .PaymentMethods_setDefault id => "/api/payment-methods/" ++ interp id ++ "/set-default"
  | .Payments_process => "/api/payments/process"
  | .Payments_transactions => "/api/payments/transactions"
  | .Payments_getTransaction id => "/api/payments/transactions/" ++ interp id
  | .Payments_refund => "/api/payments/refund"
  | .Payments_adminTransactions => "/api/payments/admin/transactions"
  | .Payments_adminStatistics => "/api/payments/admin/statistics"
  | .Coupons_validate code => "/api/Coupons/validate/" ++ code
  | .Coupons_adminList => "/api/Coupons/admin/coupons"
  | .Coupons_adminCreate => "/api/Coupons/admin/coupons"
  | .Coupons_adminUpdate id => "/api/Coupons/admin/coupons/" ++ interp id
  | .Coupons_adminDelete id => "/api/Coupons/admin/coupons/" ++ interp id
  | .Coupons_adminUsage id => "/api/Coupons/admin/coupons/" ++ interp id ++ "/usage"
  | .Session_get => "/api/Session"

/-- The stringified call arguments of an operation, in declaration
order. -/
def opParams : Op → List String
  | .Users_getById id => [interp id]
  | .Users_adminGetUserById id => [interp id]
  | .Users_adminUpdateUser id => [interp id]
  | .Users_adminResetPassword id => [interp id]
  | .Products_getById id => [interp id]
  | .Products_update id => [interp id]
  | .Products_delete id => [interp id]
  | .Products_availability id => [interp id]
  | .Products_stock id => [interp id]
  | .Products_increaseStock id => [interp id]
  | .Products_decreaseStock id => [interp id]
  | .Cart_updateItem itemId => [interp itemId]
  | .Cart_removeItem itemId => [interp itemId]
  | .Orders_getById id => [interp id]
  | .Orders_delete id => [interp id]
  | .Orders_updateStatus id => [interp id]
  | .Orders_cancel id => [interp id]
  | .Profile_addressesUpdate id => [interp id]
  | .Profile_addressesDelete id => [interp id]
  | .Profile_addressesSetDefault id => [interp id]
  | .Reviews_create productId => [interp productId]
  | .Reviews_list productId => [interp productId]
  | .Reviews_getById productId reviewId => [interp productId, interp reviewId]
  | .Reviews_delete productId reviewId => [interp productId, interp reviewId]
  | .Reviews_myReview productId => [interp productId]
  | .Reviews_markHelpful reviewId => [interp reviewId]
  | .Reviews_moderate productId reviewId => [interp productId, interp reviewId]
  | .Wishlist_addItem productId => [interp productId]
  | .Wishlist_removeItem productId => [interp productId]
  | .Wishlist_checkItem productId => [interp productId]
  | .PaymentMethods_getById id => [interp id]
  | .PaymentMethods_update id => [interp id]
  | .PaymentMethods_delete id => [interp id]
  | .PaymentMethods_setDefault id => [interp id]
  | .Payments_getTransaction id => [interp id]
  | .Coupons_validate code => [code]
  | .Coupons_adminUpdate id => [interp id]
  | .Coupons_adminDelete id => [interp id]
  | .Coupons_adminUsage id => [interp id]
  | _ => []

/-- A parameter string is hygienic when it is non-empty, contains no `?`
character, and does not end with `/`. -/
abbrev goodParam (s : String) : Prop :=
  s.data ≠ [] ∧ '?' ∉ s.data ∧ s.data.getLast? ≠ some '/'

theorem strLenPos {s : String} (h : ¬ s = "") : 0 < s.length := by
  cases s with
  | mk data =>
    cases data with
    | nil => exact absurd rfl h
    | cons c cs => simp [String.length]

theorem configBaseUrl_pos (env : Option String) : 0 < (configBaseUrl env).length := by
  cases env with
  | none => decide
  | some s =>
    simp only [configBaseUrl, jsOrString]
    by_cases h : s = ""
    · rw [if_pos h]
      decide
    · rw [if_neg h]
      exact strLenPos h

theorem resolveBaseUrl_pos (arg env : Option String) : 0 < (resolveBaseUrl arg env).length := by
  cases arg with
  | none => exact configBaseUrl_pos env
  | some s =>
    simp only [resolveBaseUrl, jsOrString]
    by_cases h : s = ""
    · rw [if_pos h]
      exact configBaseUrl_pos env
    · rw [if_neg h]
      exact strLenPos h

theorem mem_data_append {c : Char} {s t : String} (h1 : c ∉ s.data) (h2 : c ∉ t.data) :
    c ∉ (s ++ t).data := by
  rw [String.data_append]
  intro h
  rcases List.mem_append.1 h with h | h
  · exact h1 h
  · exact h2 h

theorem getLast_data_append {s t : String} (h : t.data ≠ []) :
    (s ++ t).data.getLast? = t.data.getLast? := by
  rw [String.data_append]
  exact List.getLast?_append_of_ne_nil _ h

theorem data_append_ne_nil {s t : String} (h : t.data ≠ []) : (s ++ t).data ≠ [] := by
  rw [String.data_append]
  intro hh
  exact h (List.append_eq_nil.1 hh).2

theorem okZero (b lit : String) (hb : '?' ∉ b.data) (h1 : '?' ∉ lit.data)
    (h2 : lit.data ≠ []) (h3 : lit.data.getLast? ≠ some '/') :
    '?' ∉ (b ++ lit).data ∧ (b ++ lit).data.getLast? ≠ some '/' := by
  refine ⟨mem_data_append hb h1, ?_⟩
  rw [getLast_data_append h2]
  exact h3

theorem okOne (b lit x : String) (hb : '?' ∉ b.data) (h1 : '?' ∉ lit.data)
    (hx : goodParam x) :
    '?' ∉ (b ++ (lit ++ x)).data ∧ (b ++ (lit ++ x)).data.getLast? ≠ some '/' := by
  obtain ⟨hne, hq, hl⟩ := hx
  refine ⟨mem_data_append hb (mem_data_append h1 hq), ?_⟩
  rw [getLast_data_append (data_append_ne_nil hne), getLast_data_append hne]
  exact hl

theorem okOneMid (b lit1 x lit2 : String) (hb : '?' ∉ b.data) (h1 : '?' ∉ lit1.data)
    (hx : goodParam x) (h2 : '?' ∉ lit2.data) (h2ne : lit2.data ≠ [])
    (h2l : lit2.data.getLast? ≠ some '/') :
    '?' ∉ (b ++ ((lit1 ++ x) ++ lit2)).data
      ∧ (b ++ ((lit1 ++ x) ++ lit2)).data.getLast? ≠ some '/' := by
  refine ⟨mem_data_append hb (mem_data_append (mem_data_append h1 hx.2.1) h2), ?_⟩
  rw [getLast_data_append (data_append_ne_nil h2ne), getLast_data_append h2ne]
  exact h2l

theorem okTwo (b lit1 x lit2 y : String) (hb : '?' ∉ b.data) (h1 : '?' ∉ lit1.data)
    (hx : goodParam x) (h2 : '?' ∉ lit2.data) (hy : goodParam y) :
    '?' ∉ (b ++ (((lit1 ++ x) ++ lit2) ++ y)).data
      ∧ (b ++ (((lit1 ++ x) ++ lit2) ++ y)).data.getLast? ≠ some '/' := by
  refine ⟨mem_data_append hb
    (mem_data_append (mem_data_append (mem_data_append h1 hx.2.1) h2) hy.2.1), ?_⟩
  rw [getLast_data_append (data_append_ne_nil hy.1), getLast_data_append hy.1]
  exact hy.2.2

theorem okTwoMid (b lit1 x lit2 y lit3 : String) (hb : '?' ∉ b.data) (h1 : '?' ∉ lit1.data)
    (hx : goodParam x) (h2 : '?' ∉ lit2.data) (hy : goodParam y) (h3 : '?' ∉ lit3.data)
    (h3ne : lit3.data ≠ []) (h3l : lit3.data.getLast? ≠ some '/') :
    '?' ∉ (b ++ ((((lit1 ++ x) ++ lit2) ++ y) ++ lit3)).data
      ∧ (b ++ ((((lit1 ++ x) ++ lit2) ++ y) ++ lit3)).data.getLast? ≠ some '/' := by
  refine ⟨mem_data_append hb
    (mem_data_append
      (mem_data_append (mem_data_append (mem_data_append h1 hx.2.1) h2) hy.2.1) h3), ?_⟩
  rw [getLast_data_append (data_append_ne_nil h3ne), getLast_data_append h3ne]
  exact h3l

/-- Every URL of the class-based variant is its base URL followed by the
spec's path template for the operation. -/
theorem urlOf_eq_append (b : String) (op : Op) :
    urlOf ⟨b⟩ op = b ++ specPathTemplate op := by
  cases op <;>
    simp only [urlOf, UrlBuilder.Users, UrlBuilder.Products, UrlBuilder.Cart, UrlBuilder.Orders,
      UrlBuilder.Profile, UrlBuilder.Reviews, UrlBuilder.Wishlist, UrlBuilder.PaymentMethods,
      UrlBuilder.Payments, UrlBuilder.Coupons, UrlBuilder.Session,
      UsersEndpoints.ofBase, UsersEndpoints.register, UsersEndpoints.login, UsersEndpoints.logout,
      UsersEndpoints.getById, UsersEndpoints.adminUsers, UsersEndpoints.adminGetUserById,
      UsersEndpoints.adminUpdateUser, UsersEndpoints.adminResetPassword,
      ProductsEndpoints.ofBase, ProductsEndpoints.list, ProductsEndpoints.create,
      ProductsEndpoints.getById, ProductsEndpoints.update, ProductsEndpoints.delete,
      ProductsEndpoints.availability, ProductsEndpoints.stock, ProductsEndpoints.increaseStock,
      ProductsEndpoints.decreaseStock,
      CartEndpoints.ofBase, CartEndpoints.get, CartEndpoints.clear, CartEndpoints.addItem,
      CartEndpoints.updateItem, CartEndpoints.removeItem, CartEndpoints.checkout,
      CartEndpoints.applyCoupon, CartEndpoints.removeCoupon,
      OrdersEndpoints.ofBase, OrdersEndpoints.create, OrdersEndpoints.place, OrdersEndpoints.list,
      OrdersEndpoints.myOrders, OrdersEndpoints.getById, OrdersEndpoints.delete,
      OrdersEndpoints.updateStatus, OrdersEndpoints.pending, OrdersEndpoints.cancel,
      ProfileEndpoints.ofBase, ProfileEndpoints.get, ProfileEndpoints.update,
      ProfileEndpoints.addressesAdd, ProfileEndpoints.addressesUpdate,
      ProfileEndpoints.addressesDelete, ProfileEndpoints.addressesSetDefault,
      ProfileEndpoints.changePassword,
      ReviewsEndpoints.ofBase, ReviewsEndpoints.create, ReviewsEndpoints.list,
      ReviewsEndpoints.getById, ReviewsEndpoints.delete, ReviewsEndpoints.myReview,
      ReviewsEndpoints.markHelpful, ReviewsEndpoints.moderate, ReviewsEndpoints.adminList,
      WishlistEndpoints.ofBase, WishlistEndpoints.get, WishlistEndpoints.clear,
      WishlistEndpoints.addItem, WishlistEndpoints.removeItem, WishlistEndpoints.checkItem,
      WishlistEndpoints.moveToCart, WishlistEndpoints.count,
      PaymentMethodsEndpoints.ofBase, PaymentMethodsEndpoints.list, PaymentMethodsEndpoints.add,
      PaymentMethodsEndpoints.getById, PaymentMethodsEndpoints.update,
      PaymentMethodsEndpoints.delete, PaymentMethodsEndpoints.setDefault,
      PaymentsEndpoints.ofBase, PaymentsEndpoints.process, PaymentsEndpoints.transactions,
      PaymentsEndpoints.getTransaction, PaymentsEndpoints.refund,
      PaymentsEndpoints.adminTransactions, PaymentsEndpoints.adminStatistics,
      CouponsEndpoints.ofBase, CouponsEndpoints.validate, CouponsEndpoints.adminList,
      CouponsEndpoints.adminCreate, CouponsEndpoints.adminUpdate, CouponsEndpoints.adminDelete,
      CouponsEndpoints.adminUsage,
      SessionEndpoints.ofBase, SessionEndpoints.get,
      specPathTemplate, String.append_assoc] <;>
    rfl

/-- Every URL of the eager factory variant, instantiated with the
`part_003` shape of `buildUrl`, is the base followed by the spec's path
template. -/
theorem eager_eq_append (b : String) (op : Op) :
    createLittleBugShopEndpoints (fun path => b ++ "/api" ++ path) op
      = b ++ specPathTemplate op := by
  cases op <;>
    simp only [createLittleBugShopEndpoints, specPathTemplate, String.append_assoc] <;>
    rfl

/-- C1: if the `baseUrl` argument of the Registry constructor is omitted
or empty, the base URL is `config.baseUrl`, i.e. the `BASE_URL`
environment variable; if that is also absent the base URL is the default
`"http://localhost:5052"`; under every configuration the resolved base is
non-empty and every produced URL is that base followed by the operation's
path. -/
theorem base_url_fallback :
    (∀ env : Option String,
      (mkUrlBuilder none env).baseUrl = configBaseUrl env
        ∧ (mkUrlBuilder (some "") env).baseUrl = configBaseUrl env)
    ∧ configBaseUrl none = "http://localhost:5052"
    ∧ (∀ arg env : Option String, 0 < (mkUrlBuilder arg env).baseUrl.length)
    ∧ (∀ (arg env : Option String) (op : Op),
        urlOf (mkUrlBuilder arg env) op
          = (mkUrlBuilder arg env).baseUrl ++ specPathTemplate op) := by
  refine ⟨fun env => ⟨rfl, rfl⟩, rfl, fun arg env => resolveBaseUrl_pos arg env, ?_⟩
  intro arg env op
  exact urlOf_eq_append (resolveBaseUrl arg env) op

/-- C2: with the base-URL override `"https://staging.example.com"`, the
Registry's `Users.login` is exactly
`"https://staging.example.com/api/Users/login"`; in general any non-empty
caller-supplied base URL becomes the leading part of every produced URL,
whatever the configured default is. -/
theorem override_base_used :
    urlOf (mkUrlBuilder (some "https://staging.example.com") none) Op.Users_login
        = "https://staging.example.com/api/Users/login"
    ∧ ∀ (b : String) (env : Option String) (op : Op), b ≠ "" →
        urlOf (mkUrlBuilder (some b) env) op = b ++ specPathTemplate op := by
  constructor
  · rfl
  · intro b env op hb
    have h : mkUrlBuilder (some b) env = ⟨b⟩ := by
      simp only [mkUrlBuilder, resolveBaseUrl, jsOrString, if_neg hb]
    rw [h, urlOf_eq_append]

theorem override_base_used_witness :
    urlOf (mkUrlBuilder (some "https://staging.example.com") (some "http://other.example"))
        Op.Users_login
      = "https://staging.example.com" ++ specPathTemplate Op.Users_login :=
  override_base_used.2 "https://staging.example.com" (some "http://other.example")
    Op.Users_login (by decide)

/-- C3: for every operation and every base URL, the eager
nested-object-factory variant and the lazy class-based variant produce
byte-identical URL strings on equivalent inputs. -/
theorem variants_identical :
    ∀ (b : String) (op : Op),
      createLittleBugShopEndpoints (fun path => b ++ "/api" ++ path) op = urlOf ⟨b⟩ op :=
  fun b op => (eager_eq_append b op).trans (urlOf_eq_append b op).symm

/-- C4 counterexample: at the concrete base `"https://b.example"` the two
source variants agree on the six named groups, all of whose URLs are
prefixed with baseUrl + `"/api"`, and the Wishlist and Coupons group
roots are capitalized, contradicting the claim that one variant nests
exactly these six groups directly under `"/api"` with lowercase roots and
that the variants disagree there. -/
theorem six_groups_claim_false :
    createLittleBugShopEndpoints (fun path => "https://b.example" ++ "/api" ++ path) Op.Profile_get
        = urlOf ⟨"https://b.example"⟩ Op.Profile_get
    ∧ createLittleBugShopEndpoints (fun path => "https://b.example" ++ "/api" ++ path)
          Op.Reviews_adminList
        = urlOf ⟨"https://b.example"⟩ Op.Reviews_adminList
    ∧ createLittleBugShopEndpoints (fun path => "https://b.example" ++ "/api" ++ path)
          Op.Wishlist_get
        = urlOf ⟨"https://b.example"⟩ Op.Wishlist_get
    ∧ createLittleBugShopEndpoints (fun path => "https://b.example" ++ "/api" ++ path)
          Op.PaymentMethods_list
        = urlOf ⟨"https://b.example"⟩ Op.PaymentMethods_list
    ∧ createLittleBugShopEndpoints (fun path => "https://b.example" ++ "/api" ++ path)
          Op.Payments_process
        = urlOf ⟨"https://b.example"⟩ Op.Payments_process
    ∧ createLittleBugShopEndpoints (fun path => "https://b.example" ++ "/api" ++ path)
          Op.Coupons_adminList
        = urlOf ⟨"https://b.example"⟩ Op.Coupons_adminList
    ∧ urlOf ⟨"https://b.example"⟩ Op.Wishlist_get = "https://b.example" ++ "/api/Wishlist"
    ∧ urlOf ⟨"https://b.example"⟩ Op.Coupons_adminList
        = "https://b.example" ++ "/api/Coupons/admin/coupons"
    ∧ urlOf ⟨"https://b.example"⟩ Op.Profile_get = "https://b.example" ++ "/api/users/profile" := by
  refine ⟨rfl, rfl, rfl, rfl, rfl, rfl, by decide, by decide, by decide⟩

/-- C4 amended: the two source variants agree on the prefixing and casing
convention for every group: in both, every URL of every group is
baseUrl + `"/api"` + the group's path template.  Among the six named
groups, Profile, Reviews, PaymentMethods and Payments use lowercase root
segments that differ from the group name, while Wishlist and Coupons keep
capitalized roots. -/
theorem six_groups_convention :
    (∀ (b : String) (op : Op),
      createLittleBugShopEndpoints (fun path => b ++ "/api" ++ path) op = urlOf ⟨b⟩ op
        ∧ urlOf ⟨b⟩ op = b ++ specPathTemplate op)
    ∧ specPathTemplate Op.Profile_get = "/api/users/profile"
    ∧ specPathTemplate (Op.Reviews_create (.num 1)) = "/api/products/1/Reviews"
    ∧ specPathTemplate Op.Reviews_adminList = "/api/admin/reviews"
    ∧ specPathTemplate Op.Wishlist_get = "/api/Wishlist"
    ∧ specPathTemplate Op.PaymentMethods_list = "/api/payment-methods"
    ∧ specPathTemplate Op.Payments_process = "/api/payments/process"
    ∧ specPathTemplate Op.Coupons_adminList = "/api/Coupons/admin/coupons" := by
  refine ⟨?_, by decide, by decide, by decide, by decide, by decide, by decide, by decide⟩
  intro b op
  exact ⟨(eager_eq_append b op).trans (urlOf_eq_append b op).symm, urlOf_eq_append b op⟩

/-- C5: `Reviews.getById` substitutes its two parameters in declaration
order, producing base + `"/api/products/"` + productId + `"/Reviews/"` +
reviewId; at the default base, arguments `(10, 5)` yield
`"http://localhost:5052/api/products/10/Reviews/5"`. -/
theorem reviews_getById_order :
    (∀ (b : String) (productId reviewId : JsVal),
      urlOf ⟨b⟩ (Op.Reviews_getById productId reviewId)
        = b ++ "/api/products/" ++ interp productId ++ "/Reviews/" ++ interp reviewId)
    ∧ urlOf (mkUrlBuilder none none) (Op.Reviews_getById (.num 10) (.num 5))
        = "http://localhost:5052/api/products/10/Reviews/5" := by
  constructor
  · intro b p r
    simp only [urlOf, UrlBuilder.Reviews, ReviewsEndpoints.ofBase, ReviewsEndpoints.getById,
      String.append_assoc]
    rfl
  · rfl

/-- C6: `Coupons.validate` inserts the code string verbatim, with no
percent-encoding, after base + `"/api/Coupons/validate/"`; at the default
base, `"CODE123"` yields
`"http://localhost:5052/api/Coupons/validate/CODE123"`. -/
theorem coupons_validate_verbatim :
    (∀ (b code : String),
      urlOf ⟨b⟩ (Op.Coupons_validate code) = b ++ "/api/Coupons/validate/" ++ code)
    ∧ urlOf (mkUrlBuilder none none) (Op.Coupons_validate "CODE123")
        = "http://localhost:5052/api/Coupons/validate/CODE123" := by
  constructor
  · intro b code
    simp only [urlOf, UrlBuilder.Coupons, CouponsEndpoints.ofBase, CouponsEndpoints.validate,
      String.append_assoc]
    rfl
  · rfl

/-- C7: for every operation with fixed parameters and any two Registry
instances, the part of the URL after the base URL is the same string for
both instances: path templates do not depend on the base URL. -/
theorem suffix_invariant :
    ∀ (u₁ u₂ : UrlBuilder) (op : Op), ∃ s : String,
      urlOf u₁ op = u₁.baseUrl ++ s ∧ urlOf u₂ op = u₂.baseUrl ++ s :=
  fun u₁ u₂ op =>
    ⟨specPathTemplate op, urlOf_eq_append u₁.baseUrl op, urlOf_eq_append u₂.baseUrl op⟩

/-- C8 counterexample: with the code string `"SALE?x=1"` the Registry
returns a URL containing `'?'`, and with the id string `"5/"` it returns
a URL ending in `'/'`: the claim fails for raw parameter values, which
the Registry inserts verbatim. -/
theorem url_hygiene_false_raw :
    '?' ∈ (urlOf (mkUrlBuilder none none) (Op.Coupons_validate "SALE?x=1")).data
    ∧ urlOf (mkUrlBuilder none none) (Op.Coupons_validate "SALE?x=1")
        = "http://localhost:5052/api/Coupons/validate/SALE?x=1"
    ∧ (urlOf (mkUrlBuilder none none) (Op.Users_getById (.str "5/"))).data.getLast?
        = some '/' := by
  refine ⟨by decide, by decide, by decide⟩

/-- C8 amended: for every operation, if the base URL contains no `'?'`
and every supplied parameter's string form is non-empty, contains no
`'?'`, and does not end in `'/'`, then the returned URL contains no
`'?'` and has no trailing slash. -/
theorem url_hygiene (b : String) (op : Op) (hb : '?' ∉ b.data)
    (hp : ∀ s ∈ opParams op, goodParam s) :
    '?' ∉ (urlOf ⟨b⟩ op).data ∧ (urlOf ⟨b⟩ op).data.getLast? ≠ some '/' := by
  rw [urlOf_eq_append]
  cases op <;> simp only [specPathTemplate, opParams] at hp ⊢ <;>
    first
    | exact okZero _ _ hb (by decide) (by decide) (by decide)
    | exact okOne _ _ _ hb (by decide) (hp _ (by simp))
    | exact okOneMid _ _ _ _ hb (by decide) (hp _ (by simp)) (by decide) (by decide) (by decide)
    | exact okTwo _ _ _ _ _ hb (by decide) (hp _ (by simp)) (by decide) (hp _ (by simp))
    | exact okTwoMid _ _ _ _ _ _ hb (by decide) (hp _ (by simp)) (by decide) (hp _ (by simp))
        (by decide) (by decide) (by decide)

theorem url_hygiene_witness :
    '?' ∉ (urlOf ⟨"http://localhost:5052"⟩ (Op.Reviews_getById (.num 10) (.num 5))).data
    ∧ (urlOf ⟨"http://localhost:5052"⟩
        (Op.Reviews_getById (.num 10) (.num 5))).data.getLast? ≠ some '/' :=
  url_hygiene "http://localhost:5052" (Op.Reviews_getById (.num 10) (.num 5))
    (by decide) (by decide)

/-- C9: the Registry is deterministic and pure: the produced string is a
function of the resolved base URL and the operation (with its
parameters) alone, so any two evaluations over the same
`(baseUrl, operation, parameters)` triple, in particular two calls to the
same zero-parameter accessor, yield the identical string. -/
theorem registry_deterministic (a₁ e₁ a₂ e₂ : Option String) (op : Op)
    (h : resolveBaseUrl a₁ e₁ = resolveBaseUrl a₂ e₂) :
    urlOf (mkUrlBuilder a₁ e₁) op = urlOf (mkUrlBuilder a₂ e₂) op := by
  unfold mkUrlBuilder
  rw [h]

theorem registry_deterministic_witness :
    urlOf (mkUrlBuilder (some "https://staging.example.com") none) Op.Session_get
      = urlOf (mkUrlBuilder (some "https://staging.example.com") (some "http://other.example"))
          Op.Session_get :=
  registry_deterministic (some "https://staging.example.com") none
    (some "https://staging.example.com") (some "http://other.example") Op.Session_get (by decide)

/-- C10: the eager factory `LittleBugShop` of `part_003` takes no
base-URL argument; its base is the template interpolation of
`process.env.BASE_URL`, so with the variable unset its `BaseUrl` is the
literal text `"undefined"` and every URL it produces begins with
`"undefined"`, e.g. `"undefined/api/Users/register"`. -/
theorem eager_undefined_base :
    (LittleBugShopEager none).1 = "undefined"
    ∧ (LittleBugShopEager none).2 Op.Users_register = "undefined/api/Users/register"
    ∧ ∀ op : Op, (LittleBugShopEager none).2 op = "undefined" ++ specPathTemplate op := by
  refine ⟨rfl, rfl, ?_⟩
  intro op
  exact eager_eq_append "undefined" op
